import Mathlib

/-!
Shallow embedding of the cdsodatacli download core
(src/cdsodatacli/download.py, src/cdsodatacli/fetch_access_token.py,
src/cdsodatacli/utils.py) and verification of the specification claims
about it.

External effects (the HTTP library, the filesystem, the clock, the
random source) are modelled explicitly: each embedded function takes an
environment record describing the outcome of each external call exactly
where the Python code performs it, and returns a record of the visible
results and side effects.  Time is modelled in whole seconds as `Int`;
download speed, which the code computes by floating-point division, is
modelled over `ℚ`.
-/

namespace Cdsodatacli

/-- `MAX_VALIDITY_ACCESS_TOKEN = 600` seconds, from fetch_access_token.py. -/
def MAX_VALIDITY_ACCESS_TOKEN : Int := 600

/-- `chunksize = 8192`, from download.py. -/
def chunksize : Nat := 8192

/-! ## Download executor: `CDS_Odata_download_one_product_v2` (download.py)

The environment describes the outcome of the one `session.get` call and
of the subsequent streaming and `shutil.move` operations. -/

/-- Outcome of the chunk-streaming loop (`response.iter_content`):
either it completes, or it raises `ChunkedEncodingError`, or it raises
some other exception (caught as a stream error). -/
inductive StreamOutcome where
  | ok : StreamOutcome
  | chunkedError : StreamOutcome
  | otherError (msg : String) : StreamOutcome
deriving DecidableEq, Repr

/-- Outcome of `session.get` (plus the enclosing `try`): either some
exception is raised before a response is obtained (a request error), or
a response arrives with a status code, a reason phrase, a
`content-length` header value in bytes, the list of body chunk sizes,
and the behaviour of the streaming loop over that body. -/
inductive RequestOutcome where
  | requestError (msg : String) : RequestOutcome
  | response (status : Nat) (reason : String) (contentLength : Nat)
      (chunks : List Nat) (stream : StreamOutcome) : RequestOutcome
deriving DecidableEq, Repr

/-- Environment of one call to `CDS_Odata_download_one_product_v2`:
the request outcome, the measured elapsed wall-clock time in seconds,
and whether the `shutil.move` publishing step succeeds. -/
structure DlEnv where
  req : RequestOutcome
  elapsed : ℚ
  moveSucceeds : Bool
deriving DecidableEq, Repr

/-- The provenance of the `status_meaning` string returned by the
executor.  Each constructor corresponds to one distinct assignment of
`status_meaning` in the source: `"unknown_code"`, `response.reason`
(tagged with the response's status code), `"ChunkedEncodingError"`,
`"StreamError: …"`, `"RequestError: …"`, `"MoveFileError"`. -/
inductive StatusMeaning where
  | unknownCode : StatusMeaning
  | httpReason (status : Nat) (reason : String) : StatusMeaning
  | chunkedEncodingError : StatusMeaning
  | streamError (msg : String) : StatusMeaning
  | requestError (msg : String) : StatusMeaning
  | moveFileError : StatusMeaning
deriving DecidableEq, Repr

/-- Visible result of one call to `CDS_Odata_download_one_product_v2`:
the returned speed (`none` models the initial `np.nan`), the returned
`status_meaning`, the final internal `status` value, and the state of
the filesystem after the call: whether the temp file is gone, whether
the final output file was published (moved into place), and whether its
permissions were set to `0775`. -/
structure DlResult where
  speed : Option ℚ
  statusMeaning : StatusMeaning
  finalStatus : Int
  tmpRemoved : Bool
  published : Bool
  chmod0775 : Bool
deriving DecidableEq, Repr

/-- Number of bytes actually written to the temp file: the sum of the
streamed chunk sizes (only chunks delivered before any stream error). -/
def bytesDownloaded (env : DlEnv) : Nat :=
  match env.req with
  | .requestError _ => 0
  | .response _ _ _ chunks _ => chunks.foldl (· + ·) 0

/-- Shallow embedding of `CDS_Odata_download_one_product_v2`
(download.py lines 42–150).  Control flow follows the source:
`status` starts at 0; on `session.get` returning, `status` and
`status_meaning` take the response's code and reason; streaming happens
only when `response.ok` (status < 400); a mid-stream
`ChunkedEncodingError` or other exception sets `status = -1` with the
corresponding meaning; any request exception sets `status = -1` with a
`RequestError` meaning.  Then the temp file is removed whenever
`status ≠ 200` and it exists; on `status == 200` the speed is
`int(int(content_length)/1000/1000) / elapsed` (0 when elapsed ≤ 0) and
the temp file is moved to the output path and chmodded `0775`; if the
move raises, `status_meaning` becomes `"MoveFileError"` and `status`
becomes -2. -/
def CDS_Odata_download_one_product_v2 (env : DlEnv) : DlResult :=
  match env.req with
  | .requestError m =>
      -- the temp file was opened empty before the request, and is
      -- removed by the cleanup because status = -1 ≠ 200
      { speed := none, statusMeaning := .requestError m, finalStatus := -1,
        tmpRemoved := true, published := false, chmod0775 := false }
  | .response st reason clen _chunks strm =>
      let streamed := st < 400   -- response.ok
      let stMean : Int × StatusMeaning :=
        if streamed then
          match strm with
          | .ok => ((st : Int), .httpReason st reason)
          | .chunkedError => (-1, .chunkedEncodingError)
          | .otherError m => (-1, .streamError m)
        else ((st : Int), .httpReason st reason)
      let status := stMean.1
      let meaning := stMean.2
      if status = 200 then
        let total_length : Nat := clen / 1000 / 1000
        let speed : ℚ := if 0 < env.elapsed then (total_length : ℚ) / env.elapsed else 0
        if env.moveSucceeds then
          { speed := some speed, statusMeaning := meaning, finalStatus := status,
            tmpRemoved := true, published := true, chmod0775 := true }
        else
          { speed := some speed, statusMeaning := .moveFileError, finalStatus := -2,
            tmpRemoved := false, published := false, chmod0775 := false }
      else
        { speed := none, statusMeaning := meaning, finalStatus := status,
          tmpRemoved := true, published := false, chmod0775 := false }

/-! ## Token manager (fetch_access_token.py) -/

/-- A token semaphore file as seen by `get_list_of_exising_token`: the
date parsed from the last `_`-separated component of the filename
(`none` when `strptime` raises, i.e. the file is malformed), given as
seconds, and the token string stored inside. -/
structure TokenFile where
  parsedDate : Option Int
  tokenValue : String
deriving DecidableEq, Repr, Inhabited

/-- Shallow embedding of `get_list_of_exising_token`
(fetch_access_token.py lines 155–198): keep exactly the files whose
date component parses and whose age `now - date` is strictly below
`MAX_VALIDITY_ACCESS_TOKEN`; malformed files are skipped. -/
def get_list_of_exising_token (now : Int) (files : List TokenFile) : List TokenFile :=
  files.filter (fun f =>
    match f.parsedDate with
    | none => false
    | some d => now - d < MAX_VALIDITY_ACCESS_TOKEN)

/-- Shallow embedding of `remove_semaphore_token_file`
(fetch_access_token.py lines 201–220).  Inputs: current time, the
token's generation date, whether the lease file exists, and whether the
`os.remove` call would succeed (an `OSError` is swallowed).  Returns
whether the file still exists afterwards; the function never raises, so
it is total. -/
def remove_semaphore_token_file (now issuedAt : Int) (fileExists removeSucceeds : Bool) :
    Bool :=
  if fileExists ∧ MAX_VALIDITY_ACCESS_TOKEN ≤ now - issuedAt then
    if removeSucceeds then false else true
  else fileExists

/-- JSON body of the identity endpoint's reply: either it fails to
parse, or it is a JSON object that may or may not contain an
`access_token` field. -/
inductive JsonBody where
  | malformed : JsonBody
  | valid (hasAccessToken : Bool) (tokenValue : String) : JsonBody
deriving DecidableEq, Repr

/-- Outcome of the `requests.post` call to the identity endpoint:
either a network/timeout exception, or a response with a status code
and a body. -/
inductive IdentityResponse where
  | netError : IdentityResponse
  | response (status : Nat) (body : JsonBody) : IdentityResponse
deriving DecidableEq, Repr

/-- `Response.raise_for_status` of the requests library raises exactly
when `400 ≤ status_code < 600`. -/
def raise_for_status_raises (status : Nat) : Bool :=
  decide (400 ≤ status ∧ status < 600)

/-- Visible result of `get_bearer_access_token`: the returned token
(`none` models Python `None`) and whether a token semaphore file was
written to disk (`write_token_semphore_file` was reached). -/
structure TokenAcqResult where
  token : Option String
  fileWritten : Bool
deriving DecidableEq, Repr

/-- Shallow embedding of the network/parse part of
`get_bearer_access_token` (fetch_access_token.py lines 78–115): a
request exception or `raise_for_status` (status in [400,600)) or a JSON
decode error returns `(None, None, None, None)` before
`write_token_semphore_file` is ever called; otherwise, if the parsed
body has an `access_token` field the token is extracted and a semaphore
file is written, else the token is `None` and no file is written. -/
def get_bearer_access_token (r : IdentityResponse) : TokenAcqResult :=
  match r with
  | .netError => { token := none, fileWritten := false }
  | .response st body =>
      if raise_for_status_raises st then { token := none, fileWritten := false }
      else
        match body with
        | .malformed => { token := none, fileWritten := false }
        | .valid hasTok tv =>
            if hasTok then { token := some tv, fileWritten := true }
            else { token := none, fileWritten := false }

/-- Credential selection inside `get_bearer_access_token`
(fetch_access_token.py lines 50–57) for the call pattern
`specific_account=None, passwd=None`: the account group is the ordered
list of `(login, password)` pairs from the configuration;
`login = random.choice(list(conf[group].keys()))` is modelled by an
index `pick` into the key list, and
`passwd = conf[group][all_accounts[0]]` is the password of the first
account.  Returns `none` when the group is empty (the source logs an
error and returns `(None, None, None, None)`). -/
def chooseCredentials (accounts : List (String × String)) (pick : Nat) :
    Option (String × String) :=
  match accounts with
  | [] => none
  | a0 :: _ =>
      some (((accounts.get! (pick % accounts.length)).1), a0.2)

/-! ## Sequential downloader token handling (`download_list_product`,
download.py lines 377–494) -/

/-- The held access token of the sequential downloader: its generation
date in seconds. -/
structure HeldToken where
  issuedAt : Int
deriving DecidableEq, Repr

/-- The per-product refresh step of `download_list_product` (download.py
lines 442–455): if `(today - date_generation_access_token).total_seconds()
≥ MAX_VALIDITY_ACCESS_TOKEN` a fresh token is minted (its generation
date is the current time), otherwise the same token is reused. -/
def refreshToken (now : Int) (t : HeldToken) : HeldToken :=
  if MAX_VALIDITY_ACCESS_TOKEN ≤ now - t.issuedAt then { issuedAt := now } else t

/-- Initial token acquisition of `download_list_product` (download.py
lines 394–412): list the unexpired token leases; if none exist, contact
the identity endpoint (`get_bearer_access_token`), minting a token
dated now; otherwise pick one of the listed leases at random
(`random.choice`, modelled by the index `pick`) and parse its date —
without contacting the identity endpoint.  Returns
(contactedIdentityEndpoint, heldToken). -/
def acquireInitialToken (now : Int) (files : List TokenFile) (pick : Nat) :
    Bool × HeldToken :=
  match get_list_of_exising_token now files with
  | [] => (true, { issuedAt := now })
  | a :: rest =>
      let chosen := (a :: rest).get ⟨pick % (a :: rest).length, Nat.mod_lt _ (Nat.succ_pos _)⟩
      (false, { issuedAt := chosen.parsedDate.getD 0 })

/-! ## Scheduling loop: `download_list_product_multithread_v2`
(download.py lines 197–374)

The admission controller `get_sessions_download_available` lives in
`cdsodatacli/session.py`, which is outside the embedded sources; the
loop is therefore parameterised by an oracle `grants` that, given the
round number and the current state, returns the granted batch together
with each download's result, and by the external constants
`nAcc = len(conf[account_group])` and
`maxSess = MAX_SESSION_PER_ACCOUNT` (session.py). -/

/-- One harvested download of a round: the index of its product item in
`df2`, the login whose account performed it, whether `future.result()`
itself raised (the thread-exception branch), and otherwise whether the
returned `status_meaning` was `"OK"`. -/
structure RoundItem where
  idx : Nat
  login : String
  raised : Bool
  ok : Bool
deriving DecidableEq, Repr

/-- Item status in `df2["status"]`: 0 = pending (not treated),
1 = successful download, -1 = error.  (Comment at download.py line
230.) -/
def pendingStatus : Int := 0

/-- Scheduler state: the `df2["status"]` column (indexed by item) and
the `blacklist` list of logins. -/
structure SchedState where
  statuses : List Int
  blacklist : List String
deriving DecidableEq, Repr

/-- Result-harvest update for a single completed future: success sets
the item's status to 1, any failure (including a raised
`future.result()`) sets it to -1. -/
def applyResult (sts : List Int) (r : RoundItem) : List Int :=
  if r.raised then sts.set r.idx (-1)
  else if r.ok then sts.set r.idx 1
  else sts.set r.idx (-1)

/-- Harvest a whole round's results, in completion order. -/
def harvest (sts : List Int) (batch : List RoundItem) : List Int :=
  batch.foldl applyResult sts

/-- `errors_per_account[login]` after harvesting: the number of
non-raised results of this round for this login whose `status_meaning`
was not `"OK"`.  (The thread-exception branch increments only
`cpt["status_Exception"]`, not `errors_per_account`.) -/
def errCount (batch : List RoundItem) (l : String) : Nat :=
  (batch.filter (fun r => !r.raised && !r.ok && r.login == l)).length

/-- Blacklist update at the end of a round (download.py lines 354–357):
for every key of `errors_per_account` (a login with at least one
counted error) whose count is at least `MAX_SESSION_PER_ACCOUNT`,
append it to `blacklist`. -/
def updateBlacklist (maxSess : Nat) (batch : List RoundItem) (bl : List String) :
    List String :=
  bl ++ ((batch.filter (fun r => !r.raised && !r.ok)).map (·.login)).dedup.filter
    (fun l => maxSess ≤ errCount batch l)

/-- How the `while` loop exited: `drained` when `(df2["status"] == 0).any()`
became false, `allBlacklisted` when the empty-batch branch hit
`len(blacklist) >= len(conf[account_group])` and executed `break`. -/
inductive ExitKind where
  | drained : ExitKind
  | allBlacklisted : ExitKind
deriving DecidableEq, Repr

/-- Shallow embedding of the `while (df2["status"] == 0).any()` loop of
`download_list_product_multithread_v2` (download.py lines 240–357),
with explicit fuel (`none` = fuel exhausted before the loop exited;
the Python loop can spin forever in the empty-batch `continue` branch).
Each iteration: if some item is pending, ask the admission oracle for a
batch; an empty batch breaks the loop when
`len(blacklist) ≥ nAcc` and otherwise retries after a sleep; a
non-empty batch is harvested and the blacklist updated. -/
def runLoop (nAcc maxSess : Nat) (grants : Nat → SchedState → List RoundItem) :
    Nat → Nat → SchedState → Option (SchedState × ExitKind)
  | 0, _, _ => none
  | fuel + 1, round, st =>
      if st.statuses.any (· == pendingStatus) then
        let batch := grants (round + 1) st
        if batch.isEmpty then
          if nAcc ≤ st.blacklist.length then some (st, .allBlacklisted)
          else runLoop nAcc maxSess grants fuel (round + 1) st
        else
          runLoop nAcc maxSess grants fuel (round + 1)
            { statuses := harvest st.statuses batch,
              blacklist := updateBlacklist maxSess batch st.blacklist }
      else some (st, .drained)

/-! ## Local presence resolver: `check_safe_in_outputdir` (utils.py
lines 53–101) -/

/-- Python `str.endswith`, as a structurally recursive suffix test on
the character list (kernel-evaluable, unlike `String.endsWith`). -/
def pyEndswith (s suffix : String) : Bool :=
  suffix.data.isSuffixOf s.data

/-- Structurally recursive core of `pyReplace`, with fuel bounding the
number of scanning steps. -/
def pyReplaceAux (old new : List Char) : Nat → List Char → List Char
  | 0, s => s
  | _ + 1, [] => []
  | fuel + 1, c :: cs =>
      if old.isPrefixOf (c :: cs) then
        new ++ pyReplaceAux old new fuel ((c :: cs).drop old.length)
      else c :: pyReplaceAux old new fuel cs

/-- Python `str.replace(old, new)` for a non-empty `old` pattern (the
only pattern the source uses is `".SAFE"`): replace all
non-overlapping occurrences left to right. -/
def pyReplace (s old new : String) : String :=
  ⟨pyReplaceAux old.data new.data s.data.length s.data⟩

/-- The output directory's filesystem state: which paths exist and
which of them fail the ZIP integrity test (`zipfile.ZipFile` +
`testzip` raising `BadZipFile`/`OSError` or reporting a bad member). -/
structure OutDirFs where
  files : List String
  corrupt : List String
deriving DecidableEq, Repr

/-- The candidate paths probed, in order (utils.py lines 69–73). -/
def outdirCandidates (outputdir safename : String) : List String :=
  [outputdir ++ "/" ++ safename ++ ".zip",
   outputdir ++ "/" ++ safename,
   outputdir ++ "/" ++ pyReplace safename ".SAFE" ".zip"]

/-- Shallow embedding of `check_safe_in_outputdir`: probe the
candidates in order; with no hit return `False`; if the first hit ends
in `.zip`, run the integrity test — a corrupt archive is removed and
the function returns `False`, a sound one returns `True`; a non-`.zip`
hit returns `True` with no check.  Returns the boolean together with
the filesystem state afterwards. -/
def check_safe_in_outputdir (fs : OutDirFs) (outputdir safename : String) :
    Bool × OutDirFs :=
  match (outdirCandidates outputdir safename).find? (fun c => fs.files.contains c) with
  | none => (false, fs)
  | some f =>
      if pyEndswith f ".zip" then
        if fs.corrupt.contains f then
          (false, { fs with files := fs.files.erase f })
        else (true, fs)
      else (true, fs)

/-! ## Theorems for the claims -/

/-- C5: `remove_semaphore_token_file` deletes the lease file only when
`now - issued_at ≥ MAX_VALIDITY_ACCESS_TOKEN` (600 s) and is otherwise
a no-op; it never removes a still-valid lease; and deletion is
idempotent — on a missing file it is a no-op and an `OSError` from the
removal is swallowed (the function is total and never raises). -/
theorem remove_semaphore_token_file_spec (now issuedAt : Int)
    (fileExists removeSucceeds : Bool) :
    (now - issuedAt < MAX_VALIDITY_ACCESS_TOKEN →
      remove_semaphore_token_file now issuedAt fileExists removeSucceeds = fileExists) ∧
    (remove_semaphore_token_file now issuedAt fileExists removeSucceeds = false →
      fileExists = true → MAX_VALIDITY_ACCESS_TOKEN ≤ now - issuedAt) ∧
    (fileExists = false →
      remove_semaphore_token_file now issuedAt fileExists removeSucceeds = false) ∧
    (fileExists = true → MAX_VALIDITY_ACCESS_TOKEN ≤ now - issuedAt →
      removeSucceeds = true →
      remove_semaphore_token_file now issuedAt fileExists removeSucceeds = false) := by
  unfold remove_semaphore_token_file
  refine ⟨?_, ?_, ?_, ?_⟩ <;> intros <;> split_ifs at * <;> simp_all <;> try omega

/-- Witness for C5 at concrete inputs: a lease aged 100 s (< 600 s) is
not removed. -/
theorem remove_semaphore_token_file_spec_witness :
    remove_semaphore_token_file 100 0 true true = true :=
  (remove_semaphore_token_file_spec 100 0 true true).1 (by decide)

/-- C6 counterexample: the claim quantifies over every non-2xx status,
but `raise_for_status` only raises for statuses in [400, 600); a
redirect-class status 302 whose body is well-formed JSON with an
`access_token` field yields a token and writes a semaphore file. -/
theorem get_bearer_access_token_non2xx_counterexample :
    ¬(200 ≤ 302 ∧ 302 < 300) ∧
    get_bearer_access_token (.response 302 (.valid true "tok")) =
      { token := some "tok", fileWritten := true } := by
  decide

/-- C6 (amended): when the identity endpoint is unreachable (network
error), or replies with a status in [400, 600) (the statuses
`raise_for_status` treats as rejection), or replies with malformed
JSON, `get_bearer_access_token` fails — it returns no token and no
token semaphore file is written. -/
theorem get_bearer_access_token_failure_no_file (r : IdentityResponse) :
    (r = .netError →
      get_bearer_access_token r = { token := none, fileWritten := false }) ∧
    (∀ st body, r = .response st body → 400 ≤ st → st < 600 →
      get_bearer_access_token r = { token := none, fileWritten := false }) ∧
    (∀ st, r = .response st .malformed →
      get_bearer_access_token r = { token := none, fileWritten := false }) := by
  refine ⟨?_, ?_, ?_⟩
  · rintro rfl; rfl
  · rintro st body rfl h1 h2
    simp [get_bearer_access_token, raise_for_status_raises, h1, h2]
  · rintro st rfl
    simp only [get_bearer_access_token]
    split_ifs <;> rfl

/-- Witness for C6 (amended) at a concrete input: a 500 reply with
malformed JSON yields no token and writes no file. -/
theorem get_bearer_access_token_failure_no_file_witness :
    get_bearer_access_token (.response 500 .malformed) =
      { token := none, fileWritten := false } :=
  (get_bearer_access_token_failure_no_file (.response 500 .malformed)).2.1
    500 .malformed rfl (by decide) (by decide)

/-- C10: with `specific_account=None` and `passwd=None` over a
non-empty account group, the submitted login is the randomly chosen
account's login while the submitted password is always the first
account's password; on the concrete two-account group
`[("a","pa"), ("b","pb")]` with the random choice landing on the second
account, the submitted pair `("b","pa")` matches no configured
account. -/
theorem chooseCredentials_random_login_first_password
    (accounts : List (String × String)) (pick : Nat) (h : accounts ≠ []) :
    (∃ cred, chooseCredentials accounts pick = some cred ∧
      cred.1 = (accounts.get! (pick % accounts.length)).1 ∧
      cred.2 = (accounts.head h).2) ∧
    (chooseCredentials [("a", "pa"), ("b", "pb")] 1 = some ("b", "pa") ∧
      ("b", "pa") ∉ [("a", "pa"), ("b", "pb")]) := by
  constructor
  · match accounts, h with
    | a0 :: rest, _ =>
        exact ⟨_, rfl, rfl, rfl⟩
  · constructor
    · rfl
    · decide

/-- Witness for C10 at a concrete input: on the singleton group the
submitted credentials are that account's own. -/
theorem chooseCredentials_random_login_first_password_witness :
    chooseCredentials [("a", "pa"), ("b", "pb")] 1 = some ("b", "pa") :=
  (chooseCredentials_random_login_first_password [("x", "px")] 0 (by decide)).2.1

/-- Every file kept by `get_list_of_exising_token` has a parsed date
and its age is strictly below the validity window. -/
theorem mem_get_list_of_exising_token (now : Int) (files : List TokenFile)
    (f : TokenFile) (hf : f ∈ get_list_of_exising_token now files) :
    ∃ d, f.parsedDate = some d ∧ now - d < MAX_VALIDITY_ACCESS_TOKEN := by
  unfold get_list_of_exising_token at hf
  rw [List.mem_filter] at hf
  obtain ⟨-, hp⟩ := hf
  cases hd : f.parsedDate with
  | none => rw [hd] at hp; simp at hp
  | some d =>
      rw [hd] at hp
      simp only [decide_eq_true_eq] at hp
      exact ⟨d, rfl, hp⟩

/-- C4: a token lease is never read or used once its age is ≥ 600 s.
(i) `get_list_of_exising_token` returns only leases whose age is
strictly below `MAX_VALIDITY_ACCESS_TOKEN`; (ii) when unexpired leases
exist, `download_list_product` reuses one of them at random without
contacting the identity endpoint, and the reused lease's age is below
the window; (iii) the per-product refresh step mints a replacement
token (dated now) whenever the held token's age has reached 600 s, so
the token actually used always has age below 600 s. -/
theorem token_lease_never_used_expired (now : Int) (files : List TokenFile)
    (pick : Nat) (t : HeldToken) :
    (∀ f ∈ get_list_of_exising_token now files,
      ∃ d, f.parsedDate = some d ∧ now - d < MAX_VALIDITY_ACCESS_TOKEN) ∧
    (get_list_of_exising_token now files ≠ [] →
      (acquireInitialToken now files pick).1 = false ∧
      now - (acquireInitialToken now files pick).2.issuedAt < MAX_VALIDITY_ACCESS_TOKEN) ∧
    (MAX_VALIDITY_ACCESS_TOKEN ≤ now - t.issuedAt →
      (refreshToken now t).issuedAt = now) ∧
    now - (refreshToken now t).issuedAt < MAX_VALIDITY_ACCESS_TOKEN := by
  refine ⟨fun f hf => mem_get_list_of_exising_token now files f hf, ?_, ?_, ?_⟩
  · intro hne
    rcases h : get_list_of_exising_token now files with - | ⟨a, rest⟩
    · exact absurd h hne
    · have hlen : pick % (rest.length + 1) < (a :: rest).length :=
        Nat.mod_lt _ (Nat.succ_pos _)
      have hmem : (a :: rest)[pick % (rest.length + 1)] ∈
          get_list_of_exising_token now files := by
        rw [h]; exact List.getElem_mem _
      obtain ⟨d, hd, hlt⟩ := mem_get_list_of_exising_token now files _ hmem
      simp only [acquireInitialToken, h]
      refine ⟨by simp, ?_⟩
      simp only [List.get_eq_getElem, List.length_cons]
      rw [hd]
      simpa using hlt
  · intro hge
    unfold refreshToken
    rw [if_pos hge]
  · unfold refreshToken
    split_ifs with h
    · simp [MAX_VALIDITY_ACCESS_TOKEN]
    · simp only [MAX_VALIDITY_ACCESS_TOKEN] at *
      omega

/-- Witness for C4 at concrete inputs: with one unexpired lease on
disk (age 500 s at `now = 1000`), reuse picks it without contacting the
identity endpoint and its age is below the validity window. -/
theorem token_lease_never_used_expired_witness :
    (acquireInitialToken 1000 [{ parsedDate := some 500, tokenValue := "t" }] 0).1 = false ∧
    1000 - (acquireInitialToken 1000 [{ parsedDate := some 500, tokenValue := "t" }] 0).2.issuedAt <
      MAX_VALIDITY_ACCESS_TOKEN :=
  (token_lease_never_used_expired 1000 [{ parsedDate := some 500, tokenValue := "t" }] 0
    { issuedAt := 0 }).2.1 (by decide)

/-- C9: when the first existing candidate for a product in the output
directory is a `.zip`, `check_safe_in_outputdir` deletes it and
returns `False` (absent, forcing re-download) if it fails the ZIP
integrity test, and returns `True` (present) without touching the
filesystem if it passes. -/
theorem check_safe_in_outputdir_zip_integrity (fs : OutDirFs)
    (outputdir safename f : String)
    (hfind : (outdirCandidates outputdir safename).find?
      (fun c => fs.files.contains c) = some f)
    (hzip : pyEndswith f ".zip" = true) :
    (fs.corrupt.contains f = true →
      check_safe_in_outputdir fs outputdir safename =
        (false, { fs with files := fs.files.erase f })) ∧
    (fs.corrupt.contains f = false →
      check_safe_in_outputdir fs outputdir safename = (true, fs)) := by
  unfold check_safe_in_outputdir
  rw [hfind]
  constructor <;> intro hc
  · have hc' : f ∈ fs.corrupt := by simpa using hc
    simp [hzip, hc']
  · have hc' : f ∉ fs.corrupt := by simpa using hc
    simp [hzip, hc']

/-- Witness for C9 at concrete inputs: a corrupt `out/S.zip` is removed
and reported absent. -/
theorem check_safe_in_outputdir_zip_integrity_witness :
    check_safe_in_outputdir
        { files := ["out/S.zip"], corrupt := ["out/S.zip"] } "out" "S" =
      (false, { files := List.erase ["out/S.zip"] "out/S.zip",
                corrupt := ["out/S.zip"] }) :=
  (check_safe_in_outputdir_zip_integrity
    { files := ["out/S.zip"], corrupt := ["out/S.zip"] } "out" "S" "out/S.zip"
    (by decide) (by decide)).1 (by decide)

/-- C2 counterexample: the claim quantifies over every 2xx status, but
the executor publishes only on status exactly 200: a 202 response whose
body streams cleanly (and with the rename available) is not published —
its temp file is deleted instead. -/
theorem publish_on_2xx_counterexample :
    (200 ≤ 202 ∧ 202 < 300) ∧
    (CDS_Odata_download_one_product_v2
      { req := .response 202 "Accepted" 1000000 [1000000] .ok,
        elapsed := 1, moveSucceeds := true }).published = false ∧
    (CDS_Odata_download_one_product_v2
      { req := .response 202 "Accepted" 1000000 [1000000] .ok,
        elapsed := 1, moveSucceeds := true }).tmpRemoved = true := by
  refine ⟨by decide, rfl, rfl⟩

/-- C2 (amended): whenever the GET request returns status exactly 200
and streaming completes without error, the temp file is published by
renaming it to the final output path with permissions 0775; if the
rename itself fails the outcome is classified `MoveFileError`
(internal status -2), a classification distinct from any transport
failure (`RequestError`, `StreamError`, `ChunkedEncodingError`). -/
theorem publish_on_200 (reason : String) (clen : Nat) (chunks : List Nat)
    (elapsed : ℚ) (mv : Bool) :
    (mv = true →
      CDS_Odata_download_one_product_v2
          { req := .response 200 reason clen chunks .ok,
            elapsed := elapsed, moveSucceeds := mv } =
        { speed := some (if 0 < elapsed then ((clen / 1000 / 1000 : Nat) : ℚ) / elapsed else 0),
          statusMeaning := .httpReason 200 reason, finalStatus := 200,
          tmpRemoved := true, published := true, chmod0775 := true }) ∧
    (mv = false →
      CDS_Odata_download_one_product_v2
          { req := .response 200 reason clen chunks .ok,
            elapsed := elapsed, moveSucceeds := mv } =
        { speed := some (if 0 < elapsed then ((clen / 1000 / 1000 : Nat) : ℚ) / elapsed else 0),
          statusMeaning := .moveFileError, finalStatus := -2,
          tmpRemoved := false, published := false, chmod0775 := false }) ∧
    (∀ m, StatusMeaning.moveFileError ≠ .requestError m ∧
      StatusMeaning.moveFileError ≠ .streamError m) ∧
    StatusMeaning.moveFileError ≠ .chunkedEncodingError := by
  refine ⟨?_, ?_, fun m => ⟨by simp, by simp⟩, by simp⟩ <;>
    rintro rfl <;> simp [CDS_Odata_download_one_product_v2]

/-- Witness for C2 (amended) at concrete inputs: a 200 download whose
rename fails is classified `MoveFileError`. -/
theorem publish_on_200_witness :
    CDS_Odata_download_one_product_v2
        { req := .response 200 "OK" 0 [] .ok, elapsed := 1, moveSucceeds := false } =
      { speed := some (if (0 : ℚ) < 1 then ((0 / 1000 / 1000 : Nat) : ℚ) / 1 else 0),
        statusMeaning := .moveFileError, finalStatus := -2,
        tmpRemoved := false, published := false, chmod0775 := false } :=
  (publish_on_200 "OK" 0 [] 1 false).2.1 rfl

/-- C3 counterexample: for a successful status-200 download the
reported speed is not `bytes_downloaded / elapsed_time`: the numerator
is `int(int(content_length_header)/1000/1000)` — the `content-length`
header truncated to Mo — not the number of bytes streamed.  Here
5 000 000 bytes are downloaded in 2 s: the code reports 5/2 (Mo/s)
while `bytes_downloaded / elapsed` is 2 500 000. -/
theorem throughput_not_bytes_counterexample :
    (CDS_Odata_download_one_product_v2
      { req := .response 200 "OK" 5000000 [5000000] .ok,
        elapsed := 2, moveSucceeds := true }).finalStatus = 200 ∧
    bytesDownloaded
      { req := .response 200 "OK" 5000000 [5000000] .ok,
        elapsed := 2, moveSucceeds := true } = 5000000 ∧
    (CDS_Odata_download_one_product_v2
      { req := .response 200 "OK" 5000000 [5000000] .ok,
        elapsed := 2, moveSucceeds := true }).speed = some (5 / 2 : ℚ) ∧
    some (5 / 2 : ℚ) ≠
      some ((bytesDownloaded
        { req := .response 200 "OK" 5000000 [5000000] .ok,
          elapsed := 2, moveSucceeds := true } : ℚ) / 2) := by
  refine ⟨rfl, rfl, ?_, ?_⟩
  · show some (if (0 : ℚ) < 2 then ((5000000 / 1000 / 1000 : Nat) : ℚ) / 2 else 0) = _
    norm_num
  · show some (5 / 2 : ℚ) ≠ some ((5000000 : ℚ) / 2)
    norm_num

/-- C3 (amended): for a download finishing with status exactly 200,
the reported speed is `int(int(content_length_header)/1000/1000)`
divided by the elapsed time when the elapsed time is positive, and 0
otherwise — the numerator comes from the `content-length` header in
units of 10^6 bytes, not from the bytes actually downloaded. -/
theorem throughput_from_content_length (reason : String) (clen : Nat)
    (chunks : List Nat) (elapsed : ℚ) (mv : Bool) :
    (0 < elapsed →
      (CDS_Odata_download_one_product_v2
        { req := .response 200 reason clen chunks .ok,
          elapsed := elapsed, moveSucceeds := mv }).speed =
        some (((clen / 1000 / 1000 : Nat) : ℚ) / elapsed)) ∧
    (elapsed ≤ 0 →
      (CDS_Odata_download_one_product_v2
        { req := .response 200 reason clen chunks .ok,
          elapsed := elapsed, moveSucceeds := mv }).speed = some 0) := by
  constructor
  · intro h
    cases mv <;> simp [CDS_Odata_download_one_product_v2, h]
  · intro h
    cases mv <;> simp [CDS_Odata_download_one_product_v2, not_lt.mpr h]

/-- Witness for C3 (amended) at concrete inputs: a 2 000 000-byte
content-length downloaded in 1 s reports 2 Mo/s. -/
theorem throughput_from_content_length_witness :
    (CDS_Odata_download_one_product_v2
      { req := .response 200 "OK" 2000000 [] .ok,
        elapsed := 1, moveSucceeds := true }).speed =
      some (((2000000 / 1000 / 1000 : Nat) : ℚ) / 1) :=
  (throughput_from_content_length "OK" 2000000 [] 1 true).1 (by norm_num)

/-- Evaluation of the executor on a mid-stream `ChunkedEncodingError`
(streaming only happens when `response.ok`, i.e. status < 400). -/
theorem dl_eval_chunked (st : Nat) (reason : String) (clen : Nat)
    (chunks : List Nat) (elapsed : ℚ) (mv : Bool) (h1 : st < 400) :
    CDS_Odata_download_one_product_v2
        { req := .response st reason clen chunks .chunkedError,
          elapsed := elapsed, moveSucceeds := mv } =
      { speed := none, statusMeaning := .chunkedEncodingError, finalStatus := -1,
        tmpRemoved := true, published := false, chmod0775 := false } := by
  simp [CDS_Odata_download_one_product_v2, h1]

/-- Evaluation of the executor on a generic mid-stream exception. -/
theorem dl_eval_stream_error (st : Nat) (reason m : String) (clen : Nat)
    (chunks : List Nat) (elapsed : ℚ) (mv : Bool) (h1 : st < 400) :
    CDS_Odata_download_one_product_v2
        { req := .response st reason clen chunks (.otherError m),
          elapsed := elapsed, moveSucceeds := mv } =
      { speed := none, statusMeaning := .streamError m, finalStatus := -1,
        tmpRemoved := true, published := false, chmod0775 := false } := by
  simp [CDS_Odata_download_one_product_v2, h1]

/-- Evaluation of the executor on a clean stream with a status below
400 other than 200. -/
theorem dl_eval_http_not200 (st : Nat) (reason : String) (clen : Nat)
    (chunks : List Nat) (elapsed : ℚ) (mv : Bool) (h1 : st < 400)
    (h2 : (st : Int) ≠ 200) :
    CDS_Odata_download_one_product_v2
        { req := .response st reason clen chunks .ok,
          elapsed := elapsed, moveSucceeds := mv } =
      { speed := none, statusMeaning := .httpReason st reason, finalStatus := st,
        tmpRemoved := true, published := false, chmod0775 := false } := by
  simp [CDS_Odata_download_one_product_v2, h1, h2]

/-- Evaluation of the executor on a status ≥ 400 (`response.ok` is
false, so the body is never streamed and the stream outcome is
irrelevant). -/
theorem dl_eval_http_ge400 (st : Nat) (reason : String) (clen : Nat)
    (chunks : List Nat) (strm : StreamOutcome) (elapsed : ℚ) (mv : Bool)
    (h1 : ¬ st < 400) :
    CDS_Odata_download_one_product_v2
        { req := .response st reason clen chunks strm,
          elapsed := elapsed, moveSucceeds := mv } =
      { speed := none, statusMeaning := .httpReason st reason, finalStatus := st,
        tmpRemoved := true, published := false, chmod0775 := false } := by
  have h2 : ((st : Int)) ≠ 200 := by omega
  simp [CDS_Odata_download_one_product_v2, h1, h2]

/-- C7: in the download executor, on a non-2xx response status or on
any exception raised before or during streaming, the temp file ends up
deleted, nothing is published, and the outcome is classified as a
request error, a stream error (with the chunked-encoding class distinct
from generic stream errors), or the HTTP response status (reason) for a
non-2xx status. -/
theorem error_cleanup_and_classification (env : DlEnv)
    (hcond : (∃ m, env.req = .requestError m) ∨
      (∃ st reason clen chunks strm,
        env.req = .response st reason clen chunks strm ∧
        (st < 200 ∨ 300 ≤ st ∨ (st < 400 ∧ strm ≠ .ok)))) :
    (CDS_Odata_download_one_product_v2 env).tmpRemoved = true ∧
    (CDS_Odata_download_one_product_v2 env).published = false ∧
    ((∃ m, (CDS_Odata_download_one_product_v2 env).statusMeaning = .requestError m) ∨
     (CDS_Odata_download_one_product_v2 env).statusMeaning = .chunkedEncodingError ∨
     (∃ m, (CDS_Odata_download_one_product_v2 env).statusMeaning = .streamError m) ∨
     (∃ st r, (CDS_Odata_download_one_product_v2 env).statusMeaning = .httpReason st r ∧
       ¬(200 ≤ st ∧ st < 300))) ∧
    (∀ m, StatusMeaning.chunkedEncodingError ≠ .streamError m) := by
  obtain ⟨req, elapsed, mv⟩ := env
  rcases hcond with ⟨m, hm⟩ | ⟨st, reason, clen, chunks, strm, hm, hst⟩ <;>
    simp only at hm <;> subst hm
  · exact ⟨rfl, rfl, Or.inl ⟨m, rfl⟩, by simp⟩
  · rcases strm with - | - | m
    · have h3 : st < 200 ∨ 300 ≤ st := by
        rcases hst with h | h | ⟨-, hno⟩
        · exact Or.inl h
        · exact Or.inr h
        · exact absurd rfl hno
      by_cases h1 : st < 400
      · rw [dl_eval_http_not200 st reason clen chunks elapsed mv h1 (by omega)]
        exact ⟨rfl, rfl, Or.inr (Or.inr (Or.inr ⟨st, reason, rfl, by omega⟩)), by simp⟩
      · rw [dl_eval_http_ge400 st reason clen chunks _ elapsed mv h1]
        exact ⟨rfl, rfl, Or.inr (Or.inr (Or.inr ⟨st, reason, rfl, by omega⟩)), by simp⟩
    · by_cases h1 : st < 400
      · rw [dl_eval_chunked st reason clen chunks elapsed mv h1]
        exact ⟨rfl, rfl, Or.inr (Or.inl rfl), by simp⟩
      · rw [dl_eval_http_ge400 st reason clen chunks _ elapsed mv h1]
        exact ⟨rfl, rfl, Or.inr (Or.inr (Or.inr ⟨st, reason, rfl, by omega⟩)), by simp⟩
    · by_cases h1 : st < 400
      · rw [dl_eval_stream_error st reason m clen chunks elapsed mv h1]
        exact ⟨rfl, rfl, Or.inr (Or.inr (Or.inl ⟨m, rfl⟩)), by simp⟩
      · rw [dl_eval_http_ge400 st reason clen chunks _ elapsed mv h1]
        exact ⟨rfl, rfl, Or.inr (Or.inr (Or.inr ⟨st, reason, rfl, by omega⟩)), by simp⟩

/-- Witness for C7 at concrete inputs: a 404 response leaves no temp
file behind. -/
theorem error_cleanup_and_classification_witness :
    (CDS_Odata_download_one_product_v2
      { req := .response 404 "Not Found" 0 [] .ok,
        elapsed := 1, moveSucceeds := true }).tmpRemoved = true :=
  (error_cleanup_and_classification
    { req := .response 404 "Not Found" 0 [] .ok,
      elapsed := 1, moveSucceeds := true }
    (Or.inr ⟨404, "Not Found", 0, [], .ok, rfl, Or.inr (Or.inl (by norm_num))⟩)).1

/-- C1 counterexample: 3 products, 1 account, session cap 2.  Round 1
dispatches two downloads to the account and both fail, so the account
is blacklisted; round 2 grants nothing and, with every account
blacklisted, the loop `break`s — the third item is left with
status 0 (pending), not marked failed. -/
theorem loop_terminal_status_counterexample :
    runLoop 1 2
      (fun _ st => if st.blacklist.isEmpty then
        [{ idx := 0, login := "acc", raised := false, ok := false },
         { idx := 1, login := "acc", raised := false, ok := false }] else [])
      10 0 { statuses := [0, 0, 0], blacklist := [] } =
      some ({ statuses := [-1, -1, 0], blacklist := ["acc"] }, .allBlacklisted) ∧
    pendingStatus ∈ [(-1 : Int), -1, 0] := by
  constructor
  · decide
  · decide

/-- C1 (amended): when the scheduling loop of
`download_list_product_multithread_v2` exits because no item is
pending (the `while` guard became false), every item's status is
terminal (≠ pending); but when it terminates early via the
all-accounts-blacklisted `break`, the blacklist covers the whole
account group and some item is still pending — the remaining pending
items keep status 0 and are not marked failed. -/
theorem runLoop_exit_characterisation (nAcc maxSess : Nat)
    (grants : Nat → SchedState → List RoundItem) (fuel round : Nat)
    (st st' : SchedState) (ek : ExitKind)
    (h : runLoop nAcc maxSess grants fuel round st = some (st', ek)) :
    (ek = .drained → ∀ s ∈ st'.statuses, s ≠ pendingStatus) ∧
    (ek = .allBlacklisted →
      nAcc ≤ st'.blacklist.length ∧ st'.statuses.any (· == pendingStatus) = true) := by
  induction fuel generalizing round st with
  | zero => simp [runLoop] at h
  | succ n ih =>
      rw [runLoop] at h
      by_cases hg : st.statuses.any (· == pendingStatus) = true
      · rw [if_pos hg] at h
        by_cases hb : (grants (round + 1) st).isEmpty = true
        · rw [if_pos hb] at h
          by_cases hbl : nAcc ≤ st.blacklist.length
          · rw [if_pos hbl] at h
            injection h with hpair
            rw [Prod.mk.injEq] at hpair
            obtain ⟨h1, h2⟩ := hpair
            subst h1
            refine ⟨fun hdr => ?_, fun _ => ⟨hbl, hg⟩⟩
            exact ExitKind.noConfusion (h2.trans hdr)
          · rw [if_neg hbl] at h
            exact ih _ _ h
        · rw [if_neg hb] at h
          exact ih _ _ h
      · rw [if_neg hg] at h
        injection h with hpair
        rw [Prod.mk.injEq] at hpair
        obtain ⟨h1, h2⟩ := hpair
        subst h1
        refine ⟨fun _ => ?_, fun hab => ExitKind.noConfusion (h2.trans hab)⟩
        intro s hs
        simp only [List.any_eq_true, beq_iff_eq] at hg
        intro hsp
        exact hg ⟨s, hs, hsp⟩

/-- Witness for C1 (amended) at concrete inputs: a one-item run whose
single download succeeds drains the loop, and the final status 1 is
not pending. -/
theorem runLoop_exit_characterisation_witness : (1 : Int) ≠ pendingStatus :=
  (runLoop_exit_characterisation 1 2
    (fun _ _ => [{ idx := 0, login := "a", raised := false, ok := true }])
    5 0 { statuses := [0], blacklist := [] }
    { statuses := [1], blacklist := [] } .drained (by decide)).1 rfl 1 (by decide)

/-- The blacklist update of a round never removes a login. -/
theorem mem_updateBlacklist_of_mem (maxSess : Nat) (batch : List RoundItem)
    (bl : List String) (l : String) (h : l ∈ bl) :
    l ∈ updateBlacklist maxSess batch bl :=
  List.mem_append_left _ h

/-- Across any completed run of the scheduling loop, the blacklist only
grows: a login blacklisted in the initial state is still blacklisted in
the final state. -/
theorem runLoop_blacklist_mono (nAcc maxSess : Nat)
    (grants : Nat → SchedState → List RoundItem) (fuel round : Nat)
    (st st' : SchedState) (ek : ExitKind) (l : String)
    (h : runLoop nAcc maxSess grants fuel round st = some (st', ek))
    (hm : l ∈ st.blacklist) : l ∈ st'.blacklist := by
  induction fuel generalizing round st with
  | zero => simp [runLoop] at h
  | succ n ih =>
      rw [runLoop] at h
      by_cases hg : st.statuses.any (· == pendingStatus) = true
      · rw [if_pos hg] at h
        by_cases hb : (grants (round + 1) st).isEmpty = true
        · rw [if_pos hb] at h
          by_cases hbl : nAcc ≤ st.blacklist.length
          · rw [if_pos hbl] at h
            injection h with hpair
            rw [Prod.mk.injEq] at hpair
            obtain ⟨h1, -⟩ := hpair
            exact h1 ▸ hm
          · rw [if_neg hbl] at h
            exact ih _ _ h hm
        · rw [if_neg hb] at h
          exact ih _ _ h (mem_updateBlacklist_of_mem _ _ _ _ hm)
      · rw [if_neg hg] at h
        injection h with hpair
        rw [Prod.mk.injEq] at hpair
        obtain ⟨h1, -⟩ := hpair
        exact h1 ▸ hm

/-- C8: after harvesting a scheduling round, every account with at
least `MAX_SESSION_PER_ACCOUNT` counted errors in that round is added
to the blacklist; and blacklisting is one-way for the run's lifetime —
a blacklisted account survives the round update and every later round
of the loop. -/
theorem blacklist_threshold_and_one_way (nAcc maxSess : Nat)
    (grants : Nat → SchedState → List RoundItem) (fuel round : Nat)
    (st st' : SchedState) (ek : ExitKind) (batch : List RoundItem)
    (bl : List String) (l : String) :
    (1 ≤ maxSess → maxSess ≤ errCount batch l →
      l ∈ updateBlacklist maxSess batch bl) ∧
    (l ∈ bl → l ∈ updateBlacklist maxSess batch bl) ∧
    (runLoop nAcc maxSess grants fuel round st = some (st', ek) →
      l ∈ st.blacklist → l ∈ st'.blacklist) := by
  refine ⟨?_, mem_updateBlacklist_of_mem maxSess batch bl l,
    fun h hm => runLoop_blacklist_mono nAcc maxSess grants fuel round st st' ek l h hm⟩
  intro h1 h2
  have hne : (batch.filter (fun r => !r.raised && !r.ok && r.login == l)) ≠ [] := by
    intro hnil
    rw [errCount, hnil] at h2
    simp at h2
    omega
  obtain ⟨r, hr⟩ := List.exists_mem_of_ne_nil _ hne
  obtain ⟨hrb, hp⟩ := List.mem_filter.mp hr
  simp only [Bool.and_eq_true, beq_iff_eq] at hp
  obtain ⟨⟨hraised, hok⟩, hlogin⟩ := hp
  unfold updateBlacklist
  apply List.mem_append_right
  rw [List.mem_filter]
  refine ⟨?_, by simpa using h2⟩
  rw [List.mem_dedup, List.mem_map]
  exact ⟨r, List.mem_filter.mpr ⟨hrb, by simp [hraised, hok]⟩, hlogin⟩

/-- Witness for C8 at concrete inputs: with a cap of 1, an account
producing one counted error in the round is blacklisted. -/
theorem blacklist_threshold_and_one_way_witness :
    "a" ∈ updateBlacklist 1
      [{ idx := 0, login := "a", raised := false, ok := false }] [] :=
  (blacklist_threshold_and_one_way 0 1 (fun _ _ => []) 0 0
    { statuses := [], blacklist := [] } { statuses := [], blacklist := [] }
    .drained [{ idx := 0, login := "a", raised := false, ok := false }] [] "a").1
    (by decide) (by decide)

end Cdsodatacli
